import Mathlib

/-!
Verification development for the BLS-Cotizador repository.

This file gives a shallow embedding, in Lean 4, of the parts of the source
that the specification's claims are about:

* `QuoteHelper.calculateTotals` and `QuoteHelper.generateQuoteNumber`
  (src/src/services/UserManagementService.ts),
* the quote status lifecycle `QuoteTrackingService.isValidStatusTransition`
  and `QuoteTrackingService.updateStatus`
  (src/src/services/QuoteTrackingService.ts),
* `DateHelper.safeParseDate` and `DateHelper.calculateDurationInDays`
  (src/src/utils/validationHelpers.ts),
* the reminder poller `ReminderAutomationService.processReminders`
  (src/ReminderAutomationService.cjs) together with
  `UserManagementService.getEmailNotificationUsers`
  (src/UserManagementService.cjs).

Numbers that the source manipulates with JavaScript arithmetic are embedded
as rationals (`ℚ`) with JavaScript's `Math.round` made explicit; timestamps
are integer epoch seconds/days; the host's local timezone is an explicit
integer offset parameter.
-/

/-! ## JavaScript-style rounding (Math.round, rounding to 2 decimals) -/

/-- JavaScript `Math.round x`: the floor of `x + 1/2` (halves round up). -/
def jsRound (x : ℚ) : ℤ := ⌊x + 1/2⌋

/-- The source's "round to 2 decimals" idiom: `Math.round (x * 100) / 100`. -/
def round2 (x : ℚ) : ℚ := (jsRound (x * 100) : ℚ) / 100

/-- JavaScript `a || b` on numbers (`0` is falsy). -/
def jsOr (a b : ℚ) : ℚ := if a = 0 then b else a

/-- JavaScript `a || b` where `a` is a possibly-absent string
(`undefined` and `""` are falsy). -/
def jsOrStr (a : Option String) (b : String) : String :=
  match a with
  | some s => if s = "" then b else s
  | none => b

/-! ## QuoteHelper.calculateTotals (src/src/services/UserManagementService.ts) -/

/-- A quote line item as `calculateTotals` reads it: quantity and the two
price fields, each possibly absent. -/
structure QuoteItem where
  cantidad : Option ℚ
  precio_unitario : Option ℚ
  precioBase : Option ℚ
deriving DecidableEq

/-- The coercion `parseFloat(String(item.cantidad || 0)) || 0`. -/
def itemCantidad (it : QuoteItem) : ℚ := it.cantidad.getD 0

/-- The coercion `parseFloat(String(item.precio_unitario || item.precioBase || 0)) || 0`. -/
def itemPrecio (it : QuoteItem) : ℚ :=
  jsOr (it.precio_unitario.getD 0) (it.precioBase.getD 0)

/-- The `reduce` computing `Σ cantidad · precio` before any rounding. -/
def rawSubtotal (items : List QuoteItem) : ℚ :=
  items.foldl (fun sum it => sum + itemCantidad it * itemPrecio it) 0

/-- The record returned by `calculateTotals`. -/
structure QuoteTotals where
  subtotal : ℚ
  descuentoMonto : ℚ
  total : ℚ
deriving DecidableEq

/-- Embeds `QuoteHelper.calculateTotals items descuento`: subtotal, discount amount
and total, each rounded to 2 decimals with `Math.round`. -/
def calculateTotals (items : List QuoteItem) (descuento : ℚ) : QuoteTotals :=
  let subtotal := rawSubtotal items
  let descuentoMonto := subtotal * descuento / 100
  let total := subtotal - descuentoMonto
  { subtotal := round2 subtotal
    descuentoMonto := round2 descuentoMonto
    total := round2 total }

/-! ## QuoteHelper.generateQuoteNumber -/

/-- Whether `bs` starts with `as` (character-list version of `String.startsWith`). -/
def charsStartWith : List Char → List Char → Bool
  | _, [] => true
  | [], _ :: _ => false
  | b :: bs, a :: as => b = a && charsStartWith bs as

/-- Whether `bs` has `as` somewhere inside it (substring search). -/
def charsHaveSub : List Char → List Char → Bool
  | [], as => as.isEmpty
  | b :: bs, as => charsStartWith (b :: bs) as || charsHaveSub bs as

/-- JavaScript `s.includes(pat)`. -/
def strIncludes (s pat : String) : Bool := charsHaveSub s.data pat.data

/-- The hardcoded placeholder marker tested by `generateQuoteNumber`. -/
def placeholderMarker : String := "mvG2cFN4sBXIfjxxnYAL"

/-- The fields of a quote that `generateQuoteNumber` reads. `created` stands
for the quote's creation date already rendered as `YYYY-MM-DD`
(`fechaCreacion.toISOString().slice(0, 10)` in the source). -/
structure QuoteN where
  numero : Option String
  created : String
  titulo : Option String

/-- The client argument of `generateQuoteNumber`. -/
structure ClientN where
  nombre : Option String

/-- The source's `replace` that deletes every dash character. -/
def stripDashes (s : String) : String :=
  String.mk (s.data.filter (fun c => c ≠ '-'))

/-- The token construction: strip whitespace, truncate to 10, uppercase. -/
def tokenize (s : String) : String :=
  String.mk (((s.data.filter (fun c => ¬ c.isWhitespace)).take 10).map Char.toUpper)

/-- The number built when the quote has no usable `numero`. -/
def buildQuoteNumber (q : QuoteN) (cliente : Option ClientN) : String :=
  let fechaFormateada := stripDashes q.created
  let clienteNombre := tokenize (jsOrStr (cliente.bind (fun c => c.nombre)) "CLIENTE")
  let eventoNombre := tokenize (jsOrStr q.titulo "EVENTO")
  "COT-001-" ++ fechaFormateada ++ "-" ++ clienteNombre ++ "-" ++ eventoNombre

/-- Embeds `QuoteHelper.generateQuoteNumber`. A `none` quote stands for the null
argument on which the body throws, landing in the `catch` branch, which
returns `COT-001-<getCurrentDateString without dashes>-CLIENTE-EVENTO`;
`today` is `DateHelper.getCurrentDateString()` (`YYYY-MM-DD`). -/
def generateQuoteNumber (cotizacion : Option QuoteN) (cliente : Option ClientN)
    (today : String) : String :=
  match cotizacion with
  | none => "COT-001-" ++ stripDashes today ++ "-CLIENTE-EVENTO"
  | some q =>
    match q.numero with
    | some n =>
      if n ≠ "" && !(strIncludes n placeholderMarker) then n
      else buildQuoteNumber q cliente
    | none => buildQuoteNumber q cliente

/-! ## Quote status lifecycle (src/src/services/QuoteTrackingService.ts) -/

/-- The `QuoteStatus` enum: borrador = draft, enviada = sent,
revisada = reviewed, aprobada = approved, rechazada = rejected,
vencida = expired, convertida = converted. -/
inductive QuoteStatus
  | borrador
  | enviada
  | revisada
  | aprobada
  | rechazada
  | vencida
  | convertida
deriving DecidableEq, Fintype

/-- The `transicionesValidas` record in `isValidStatusTransition`. -/
def validTransitions : QuoteStatus → List QuoteStatus
  | .borrador => [.enviada, .rechazada]
  | .enviada => [.revisada, .rechazada, .vencida]
  | .revisada => [.aprobada, .rechazada, .vencida]
  | .aprobada => [.convertida]
  | .rechazada => [.borrador]
  | .vencida => [.borrador]
  | .convertida => []

/-- Embeds `QuoteTrackingService.isValidStatusTransition`. -/
def isValidStatusTransition (estadoActual nuevoEstado : QuoteStatus) : Bool :=
  (validTransitions estadoActual).contains nuevoEstado

/-- A `QuoteStatusChange` history entry. -/
structure QuoteStatusChange where
  estadoAnterior : QuoteStatus
  estadoNuevo : QuoteStatus
  fecha : ℤ
  usuario : Option String
  comentario : Option String
  automatico : Bool
deriving DecidableEq

/-- The tracked fields of a persisted quote that `updateStatus` touches. -/
structure TrackedQuote where
  estado : QuoteStatus
  historialCambios : List QuoteStatusChange
  fechaEnvio : Option ℤ
  fechaRevision : Option ℤ
  fechaAprobacion : Option ℤ
  updatedAt : ℤ
deriving DecidableEq

/-- Errors thrown by `updateStatus`: "Cotización no encontrada" and
"No se puede cambiar de X a Y" (the invalid-transition rejection). -/
inductive UpdateStatusError
  | notFound
  | invalidTransition (desde hacia : QuoteStatus)
deriving DecidableEq

/-- The quote collection, as an association list from document id. -/
abbrev QuoteStore := List (String × TrackedQuote)

/-- Embeds `getByIdWithTracking`: look a quote up by id. -/
def storeGet (store : QuoteStore) (id : String) : Option TrackedQuote :=
  store.lookup id

/-- Embeds `updateDoc`: replace the document with the given id. -/
def storeSet (store : QuoteStore) (id : String) (q : TrackedQuote) : QuoteStore :=
  store.map (fun p => if p.1 = id then (p.1, q) else p)

/-- The `cambio` record that `updateStatus` builds (`automatico: false`).
The source then computes `historialActualizado = historialCambios ++ [cambio]`
but never includes it in `updateData`, so this entry is never persisted. -/
def statusChangeEntry (estadoAnterior estadoNuevo : QuoteStatus)
    (comentario usuario : Option String) (now : ℤ) : QuoteStatusChange :=
  { estadoAnterior := estadoAnterior
    estadoNuevo := estadoNuevo
    fecha := now
    usuario := usuario
    comentario := comentario
    automatico := false }

/-- The `updateData` written by `updateStatus`: the new status, `updatedAt`,
and the milestone date for enviada/revisada/aprobada. `historialCambios` is
not part of `updateData` in the source, so the stored history is untouched. -/
def applyStatusUpdate (q : TrackedQuote) (nuevo : QuoteStatus) (now : ℤ) :
    TrackedQuote :=
  let base := { q with estado := nuevo, updatedAt := now }
  match nuevo with
  | .enviada => { base with fechaEnvio := some now }
  | .revisada => { base with fechaRevision := some now }
  | .aprobada => { base with fechaAprobacion := some now }
  | _ => base

/-- Embeds `QuoteTrackingService.updateStatus`. Returns the store after the call and
the thrown error, if any; a thrown error means `updateDoc` never ran, so the
store component is the input store unchanged. -/
def updateStatus (store : QuoteStore) (id : String) (nuevoEstado : QuoteStatus)
    (comentario usuario : Option String) (now : ℤ) :
    QuoteStore × Option UpdateStatusError :=
  match storeGet store id with
  | none => (store, some .notFound)
  | some q =>
    if isValidStatusTransition q.estado nuevoEstado then
      (storeSet store id (applyStatusUpdate q nuevoEstado now), none)
    else
      (store, some (.invalidTransition q.estado nuevoEstado))

/-- The transition table exactly as the specification writes it
(draft→{sent, rejected}; sent→{reviewed, rejected, expired};
reviewed→{approved, rejected, expired}; approved→{converted};
rejected→{draft}; expired→{draft}; converted→{}), for comparison with the
source's `isValidStatusTransition`. -/
def specTransitionTable : List (QuoteStatus × QuoteStatus) :=
  [ (.borrador, .enviada), (.borrador, .rechazada),
    (.enviada, .revisada), (.enviada, .rechazada), (.enviada, .vencida),
    (.revisada, .aprobada), (.revisada, .rechazada), (.revisada, .vencida),
    (.aprobada, .convertida),
    (.rechazada, .borrador),
    (.vencida, .borrador) ]

/-! ## Civil calendar, modelling the JS `Date` local clock

A JS `Date` is an epoch instant; its local getters (`getFullYear`,
`getMonth`, `getDate`) read the proleptic-Gregorian civil date of the
instant shifted by the host timezone offset. We model the host timezone as
a fixed integer offset `off` in seconds (local clock = UTC + `off`), and
the calendar with the standard era-based day-number conversions. -/

/-- Day number (days since 1970-01-01) of the civil date `(y, m, d)`,
`m ∈ [1,12]`. -/
def daysFromCivil (y m d : ℤ) : ℤ :=
  let y' := if m ≤ 2 then y - 1 else y
  let era := y'.fdiv 400
  let yoe := y' - era * 400
  let mp := (m + 9).fmod 12
  let doy := (153 * mp + 2).fdiv 5 + d - 1
  let doe := yoe * 365 + yoe.fdiv 4 - yoe.fdiv 100 + doy
  era * 146097 + doe - 719468

/-- Civil date `(y, m, d)` of a day number (days since 1970-01-01). -/
def civilFromDays (z : ℤ) : ℤ × ℤ × ℤ :=
  let z' := z + 719468
  let era := z'.fdiv 146097
  let doe := z' - era * 146097
  let yoe := (doe - doe.fdiv 1460 + doe.fdiv 36524 - doe.fdiv 146096).fdiv 365
  let y := yoe + era * 400
  let doy := doe - (365 * yoe + yoe.fdiv 4 - yoe.fdiv 100)
  let mp := (5 * doy + 2).fdiv 153
  let d := doy - (153 * mp + 2).fdiv 5 + 1
  let m := mp + (if mp < 10 then 3 else -9)
  (y + (if m ≤ 2 then 1 else 0), m, d)

/-- The local day number holding epoch-second instant `t` under offset `off`. -/
def localDayNumber (t off : ℤ) : ℤ := (t + off).fdiv 86400

/-- JS `date.getFullYear()` for instant `t` under offset `off`. -/
def getFullYear (t off : ℤ) : ℤ := (civilFromDays (localDayNumber t off)).1

/-- JS `date.getMonth()` (0-based month index). -/
def getMonth (t off : ℤ) : ℤ := (civilFromDays (localDayNumber t off)).2.1 - 1

/-- JS `date.getDate()` (day of month). -/
def getDate (t off : ℤ) : ℤ := (civilFromDays (localDayNumber t off)).2.2

/-- Embeds `DateHelper.safeParseDate` on a `"YYYY-MM-DD"` string: the source builds
`new Date(dateStr + "T12:00:00")`, i.e. the instant whose local civil time is
noon of `(y, m, d)` under the host offset `off`. -/
def safeParseDateYMD (y m d off : ℤ) : ℤ :=
  daysFromCivil y m d * 86400 + 43200 - off

/-! ## DateHelper.calculateDurationInDays

A JS `Date` argument is embedded as `Option ℤ`: `some t` is a valid date at
epoch-millisecond `t`, `none` an Invalid Date (`getTime()` is NaN). With a
NaN operand the source's `diffDays` is NaN, `NaN > 0` is false, and the
function returns 1; the surrounding `catch` also returns 1. -/

/-- Embeds `setHours(0, 0, 0, 0)`: truncate instant `t` (epoch ms) to the preceding
local midnight under offset `off` (seconds). -/
def truncToMidnight (t off : ℤ) : ℤ :=
  ((t + off * 1000).fdiv 86400000) * 86400000 - off * 1000

/-- Embeds `DateHelper.calculateDurationInDays`. -/
def calculateDurationInDays (startDate endDate : Option ℤ) (off : ℤ) : ℤ :=
  match startDate, endDate with
  | some s, some e =>
    let start := truncToMidnight s off
    let finish := truncToMidnight e off
    let diffDays := jsRound (((finish - start : ℤ) : ℚ) / 86400000) + 1
    if diffDays > 0 then diffDays else 1
  | _, _ => 1

/-! ## Users (src/UserManagementService.cjs) -/

/-- A raw user document as stored (fields possibly absent). -/
structure UserDoc where
  nombre : Option String
  email : Option String
  activo : Option Bool
  notificacionesEmail : Option Bool
  notificacionesPush : Option Bool
deriving DecidableEq

/-- The user object `getActiveUsers` builds from a document (defaulting
absent fields as the source does). -/
structure UserProfile where
  nombre : String
  email : String
  activo : Bool
  notificacionesEmail : Bool
  notificacionesPush : Bool
deriving DecidableEq

/-- The per-document mapping inside `getActiveUsers`. -/
def toProfile (u : UserDoc) : UserProfile :=
  { nombre := u.nombre.getD ""
    email := u.email.getD ""
    activo := !(u.activo == some false)
    notificacionesEmail := !(u.notificacionesEmail == some false)
    notificacionesPush := !(u.notificacionesPush == some false) }

/-- Embeds `UserManagementService.getActiveUsers`: keep documents with
`activo !== false`. The snapshot order already reflects the query's
ordering, which the claims do not depend on. -/
def getActiveUsers (docs : List UserDoc) : List UserProfile :=
  (docs.filter (fun u => !(u.activo == some false))).map toProfile

/-- Embeds `UserManagementService.getEmailNotificationUsers`: active users with
`notificacionesEmail` truthy and a non-empty (after trim) email. -/
def getEmailNotificationUsers (docs : List UserDoc) : List UserProfile :=
  (getActiveUsers docs).filter
    (fun u => u.notificacionesEmail && !(u.email == "") && !(u.email.trim == ""))

/-! ## Reminder poller (src/ReminderAutomationService.cjs) -/

/-- A quote document as `processReminders` reads it. `proximoSeguimiento`
is the due instant in epoch seconds (`data.proximoSeguimiento.seconds`),
absent when the field is null. -/
structure QuoteDoc where
  id : String
  numero : String
  clienteNombre : Option String
  proximoSeguimiento : Option ℤ
  proximoSeguimientoTipo : Option String
  proximoSeguimientoMensaje : Option String
  proximoSeguimientoEmail : Bool
  proximoSeguimientoPush : Bool
  proximoSeguimientoUsuario : Option String
  proximoSeguimientoDestinatarios : Option (List String)
deriving DecidableEq

/-- The fallback branch of recipient resolution: all users available for
email notification, else the hardcoded operator address. -/
def fallbackDestinatarios (userDocs : List UserDoc) : List String :=
  let usuariosNotificacion := getEmailNotificationUsers userDocs
  if 0 < usuariosNotificacion.length then usuariosNotificacion.map (fun u => u.email)
  else ["russofg@gmail.com"]

/-- Recipient resolution: the reminder's own list when present and
non-empty, otherwise the fallback. -/
def resolveDestinatarios (d : QuoteDoc) (userDocs : List UserDoc) : List String :=
  match d.proximoSeguimientoDestinatarios with
  | some ds => if 0 < ds.length then ds else fallbackDestinatarios userDocs
  | none => fallbackDestinatarios userDocs

/-- The `updateDoc` field map that clears a dispatched reminder. It sets the
due time, type, message, both channel flags and the actor, but does not
mention `proximoSeguimientoDestinatarios`, so that field keeps its value. -/
def clearReminder (d : QuoteDoc) : QuoteDoc :=
  { d with
    proximoSeguimiento := none
    proximoSeguimientoTipo := none
    proximoSeguimientoMensaje := none
    proximoSeguimientoEmail := false
    proximoSeguimientoPush := false
    proximoSeguimientoUsuario := none }

/-- One poller tick's action on a single quote document.

`sendOk r = true` means `RealEmailService.sendReminderEmail` to recipient
`r` returned `true` this tick; `false` covers both a `false` return and a
thrown error (the source counts both as `emailsFallidos`). Returns the
document as persisted after the tick together with the list of recipients
to whom a send was attempted, in order — one attempt per resolved
recipient, with no short-circuiting on failure. -/
def processQuoteDoc (now : ℤ) (userDocs : List UserDoc) (sendOk : String → Bool)
    (d : QuoteDoc) : QuoteDoc × List String :=
  match d.proximoSeguimiento with
  | some t =>
    if d.proximoSeguimientoEmail then
      if t ≤ now then
        let destinatarios := resolveDestinatarios d userDocs
        let emailsEnviados := destinatarios.countP sendOk
        if 0 < emailsEnviados then (clearReminder d, destinatarios)
        else (d, destinatarios)
      else (d, [])
    else (d, [])
  | none => (d, [])

/-- A full tick of `ReminderAutomationService.processReminders`: the loop
body above applied to every quote document, with the attempted sends
concatenated in document order. -/
def processReminders (now : ℤ) (userDocs : List UserDoc) (sendOk : String → Bool)
    (docs : List QuoteDoc) : List QuoteDoc × List String :=
  (docs.map (fun d => (processQuoteDoc now userDocs sendOk d).1),
   docs.flatMap (fun d => (processQuoteDoc now userDocs sendOk d).2))

/-! # Theorems -/

/-- Helper: the source's transition predicate agrees pointwise with the
specification's transition table. -/
theorem isValidStatusTransition_iff_specTable (a b : QuoteStatus) :
    isValidStatusTransition a b = true ↔ (a, b) ∈ specTransitionTable := by
  cases a <;> cases b <;> decide

/-- C2: for a stored quote, `updateStatus` succeeds exactly when the
attempted status is an allowed target of the current status in the table
draft→{sent, rejected}; sent→{reviewed, rejected, expired};
reviewed→{approved, rejected, expired}; approved→{converted};
rejected→{draft}; expired→{draft}; converted→{}; for every other pair it
throws the invalid-transition error and the store — hence the stored status
and history — is returned unchanged, no write having been performed. -/
theorem updateStatus_success_iff_specTable
    (store : QuoteStore) (id : String) (q : TrackedQuote)
    (nuevoEstado : QuoteStatus) (comentario usuario : Option String) (now : ℤ)
    (hq : storeGet store id = some q) :
    ((updateStatus store id nuevoEstado comentario usuario now).2 = none
        ↔ (q.estado, nuevoEstado) ∈ specTransitionTable)
    ∧ ((q.estado, nuevoEstado) ∉ specTransitionTable →
        updateStatus store id nuevoEstado comentario usuario now
          = (store, some (.invalidTransition q.estado nuevoEstado))) := by
  unfold updateStatus
  rw [hq]
  by_cases h : isValidStatusTransition q.estado nuevoEstado = true
  · have hmem := (isValidStatusTransition_iff_specTable q.estado nuevoEstado).mp h
    simp [h, hmem]
  · have hmem : (q.estado, nuevoEstado) ∉ specTransitionTable := fun hm =>
      h ((isValidStatusTransition_iff_specTable q.estado nuevoEstado).mpr hm)
    simp [h, hmem]

/-- A draft quote with an empty history, for concrete evaluations. -/
def draftQuote : TrackedQuote :=
  { estado := .borrador
    historialCambios := []
    fechaEnvio := none
    fechaRevision := none
    fechaAprobacion := none
    updatedAt := 0 }

/-- Witness for C2 at a concrete input: a draft quote cannot move to
converted, and the store comes back unchanged with the invalid-transition
error. -/
theorem updateStatus_success_iff_specTable_witness :
    storeGet [("q1", draftQuote)] "q1" = some draftQuote ∧
    (((updateStatus [("q1", draftQuote)] "q1" .convertida none none 0).2 = none
        ↔ (QuoteStatus.borrador, QuoteStatus.convertida) ∈ specTransitionTable)
      ∧ ((QuoteStatus.borrador, QuoteStatus.convertida) ∉ specTransitionTable →
          updateStatus [("q1", draftQuote)] "q1" .convertida none none 0
            = ([("q1", draftQuote)],
               some (.invalidTransition .borrador .convertida)))) :=
  ⟨by decide,
   updateStatus_success_iff_specTable [("q1", draftQuote)] "q1" draftQuote
     .convertida none none 0 (by decide)⟩

/-- C3 (code bug): a valid transition borrador→enviada persists the new
status and stamps `fechaEnvio`, but the persisted `historialCambios` stays
empty: the source computes `historialActualizado` and never writes it, so
no history entry (`statusChangeEntry .borrador .enviada (some "c")
(some "u") 5`) is appended, contrary to the claim and to the service's own
"Actualizar historial de cambios" step. -/
theorem updateStatus_drops_history :
    (updateStatus [("q1", draftQuote)] "q1" .enviada (some "c") (some "u") 5).2
        = none ∧
    storeGet (updateStatus [("q1", draftQuote)] "q1" .enviada (some "c")
        (some "u") 5).1 "q1"
      = some { estado := .enviada
               historialCambios := []
               fechaEnvio := some 5
               fechaRevision := none
               fechaAprobacion := none
               updatedAt := 5 } := by
  decide

/-- C7 (code bug): on invalid input `calculateDurationInDays` returns 1,
not 0 as the claim (and the repository's own DateHelper test for null
inputs) states: with an Invalid Date the source's `diffDays` is NaN,
`NaN > 0` is false, and the guard returns 1, as does the `catch`. -/
theorem calculateDurationInDays_invalid_input :
    calculateDurationInDays none none 0 = 1 ∧
    calculateDurationInDays (some 0) none 0 = 1 ∧
    calculateDurationInDays none (some 0) 0 = 1 := by
  decide

/-- C8 counterexample: on the error branch (null quote) the source returns
`COT-001-<current date without dashes>-CLIENTE-EVENTO`, which is not of the
form `COT-ERROR-<ISO timestamp>` the claim states. -/
theorem generateQuoteNumber_error_fallback_counterexample :
    generateQuoteNumber none none "2024-03-05"
        = "COT-001-20240305-CLIENTE-EVENTO" ∧
    charsStartWith (generateQuoteNumber none none "2024-03-05").data
        "COT-ERROR-".data = false := by
  decide

/-- C8 amended: on an internal error (modelled by the null quote that makes
the body throw), `generateQuoteNumber` falls back to
`COT-001-<getCurrentDateString without dashes>-CLIENTE-EVENTO`, for every
client argument and current date. -/
theorem generateQuoteNumber_error_fallback (cliente : Option ClientN)
    (today : String) :
    generateQuoteNumber none cliente today
      = "COT-001-" ++ stripDashes today ++ "-CLIENTE-EVENTO" := rfl

/-- C9: parsing `"2024-01-15"` at local noon yields an instant whose local
year is 2024, month index 0 and day 15 under every host timezone offset:
the offset used to build the local-noon instant is the same one the local
getters subtract back out. -/
theorem safeParseDate_ymd_local_parts (off : ℤ) :
    getFullYear (safeParseDateYMD 2024 1 15 off) off = 2024 ∧
    getMonth (safeParseDateYMD 2024 1 15 off) off = 0 ∧
    getDate (safeParseDateYMD 2024 1 15 off) off = 15 := by
  have harg : safeParseDateYMD 2024 1 15 off + off = 1705320000 := by
    unfold safeParseDateYMD
    have hdc : daysFromCivil 2024 1 15 = 19737 := by decide
    rw [hdc]; ring
  unfold getFullYear getMonth getDate localDayNumber
  rw [harg]
  decide

/-- C10: any non-empty stored `numero` that does not contain the hardcoded
marker substring `mvG2cFN4sBXIfjxxnYAL` is returned unchanged by
`generateQuoteNumber`, whatever its format and whatever the client
argument. -/
theorem generateQuoteNumber_preserves_nonplaceholder
    (q : QuoteN) (cliente : Option ClientN) (today : String) (n : String)
    (hn : q.numero = some n) (hne : n ≠ "")
    (hmark : strIncludes n placeholderMarker = false) :
    generateQuoteNumber (some q) cliente today = n := by
  simp [generateQuoteNumber, hn, hne, hmark]

/-- Witness for C10: an arbitrarily malformed non-empty number without the
marker is preserved. -/
theorem generateQuoteNumber_preserves_nonplaceholder_witness :
    ({ numero := some "WEIRD 123!!", created := "2024-03-05",
       titulo := some "Gala" } : QuoteN).numero = some "WEIRD 123!!" ∧
    "WEIRD 123!!" ≠ "" ∧
    strIncludes "WEIRD 123!!" placeholderMarker = false ∧
    generateQuoteNumber
        (some { numero := some "WEIRD 123!!", created := "2024-03-05",
                titulo := some "Gala" })
        (some { nombre := some "Acme Corp" }) "2025-10-12" = "WEIRD 123!!" :=
  ⟨rfl, by decide, by decide,
   generateQuoteNumber_preserves_nonplaceholder
     { numero := some "WEIRD 123!!", created := "2024-03-05",
       titulo := some "Gala" }
     (some { nombre := some "Acme Corp" }) "2025-10-12" "WEIRD 123!!"
     rfl (by decide) (by decide)⟩

/-- A concrete quote document with a due three-recipient reminder. -/
def reminderDocC1 : QuoteDoc :=
  { id := "q1"
    numero := "COT-7"
    clienteNombre := some "Acme"
    proximoSeguimiento := some 100
    proximoSeguimientoTipo := some "seguimiento"
    proximoSeguimientoMensaje := some "llamar"
    proximoSeguimientoEmail := true
    proximoSeguimientoPush := false
    proximoSeguimientoUsuario := some "Fer"
    proximoSeguimientoDestinatarios := some ["a@x.com", "b@x.com", "c@x.com"] }

/-- Send outcome where the second recipient fails and the others succeed. -/
def sendOkC1 : String → Bool := fun r => !(r == "b@x.com")

/-- C1 counterexample: on a due reminder with three recipients where
recipients 1 and 3 succeed (2 successes), the tick does NOT clear the
recipient list: `proximoSeguimientoDestinatarios` is absent from the
clearing `updateDoc` field map, so it survives unchanged, contrary to the
claim that every reminder field including the recipient list is cleared. -/
theorem processQuoteDoc_recipient_list_not_cleared :
    (resolveDestinatarios reminderDocC1 []).countP sendOkC1 = 2 ∧
    ((processQuoteDoc 100 [] sendOkC1 reminderDocC1).1).proximoSeguimientoDestinatarios
      = some ["a@x.com", "b@x.com", "c@x.com"] := by
  decide

/-- C1 amended: when a due email reminder has at least one successful send
in a tick, the tick clears the due time, type, message, both channel flags
and the actor — but retains the recipient-list field — and no recipient
(in particular none whose send failed) is ever retried for that reminder
instance: any later tick leaves the cleared document alone and attempts no
send. -/
theorem processQuoteDoc_clears_on_success
    (now : ℤ) (userDocs : List UserDoc) (sendOk : String → Bool)
    (d : QuoteDoc) (t : ℤ)
    (hdue : d.proximoSeguimiento = some t)
    (hemail : d.proximoSeguimientoEmail = true)
    (htime : t ≤ now)
    (hsucc : 0 < (resolveDestinatarios d userDocs).countP sendOk) :
    (processQuoteDoc now userDocs sendOk d).1 = clearReminder d ∧
    (clearReminder d).proximoSeguimiento = none ∧
    (clearReminder d).proximoSeguimientoTipo = none ∧
    (clearReminder d).proximoSeguimientoMensaje = none ∧
    (clearReminder d).proximoSeguimientoEmail = false ∧
    (clearReminder d).proximoSeguimientoPush = false ∧
    (clearReminder d).proximoSeguimientoUsuario = none ∧
    (clearReminder d).proximoSeguimientoDestinatarios
        = d.proximoSeguimientoDestinatarios ∧
    (∀ (now2 : ℤ) (userDocs2 : List UserDoc) (sendOk2 : String → Bool),
        processQuoteDoc now2 userDocs2 sendOk2 (clearReminder d)
          = (clearReminder d, [])) := by
  refine ⟨?_, rfl, rfl, rfl, rfl, rfl, rfl, rfl, ?_⟩
  · simp [processQuoteDoc, hdue, hemail, htime, hsucc]
  · intro now2 userDocs2 sendOk2
    simp [processQuoteDoc, clearReminder]

/-- Witness for C1 (amended) at the concrete three-recipient document. -/
theorem processQuoteDoc_clears_on_success_witness :
    (reminderDocC1.proximoSeguimiento = some 100 ∧
     reminderDocC1.proximoSeguimientoEmail = true ∧
     (100 : ℤ) ≤ 100 ∧
     0 < (resolveDestinatarios reminderDocC1 []).countP sendOkC1) ∧
    ((processQuoteDoc 100 [] sendOkC1 reminderDocC1).1
        = clearReminder reminderDocC1 ∧
     (clearReminder reminderDocC1).proximoSeguimiento = none ∧
     (clearReminder reminderDocC1).proximoSeguimientoTipo = none ∧
     (clearReminder reminderDocC1).proximoSeguimientoMensaje = none ∧
     (clearReminder reminderDocC1).proximoSeguimientoEmail = false ∧
     (clearReminder reminderDocC1).proximoSeguimientoPush = false ∧
     (clearReminder reminderDocC1).proximoSeguimientoUsuario = none ∧
     (clearReminder reminderDocC1).proximoSeguimientoDestinatarios
        = reminderDocC1.proximoSeguimientoDestinatarios ∧
     (∀ (now2 : ℤ) (userDocs2 : List UserDoc) (sendOk2 : String → Bool),
        processQuoteDoc now2 userDocs2 sendOk2 (clearReminder reminderDocC1)
          = (clearReminder reminderDocC1, []))) :=
  ⟨⟨rfl, rfl, by decide, by decide⟩,
   processQuoteDoc_clears_on_success 100 [] sendOkC1 reminderDocC1 100
     rfl rfl (by decide) (by decide)⟩

/-- C4: when every send of a due email reminder fails in a tick, the quote
document survives the tick entirely unchanged, and a later tick (any time
at or after the due instant, whatever its own send outcomes) attempts the
same full recipient list again from scratch. -/
theorem processQuoteDoc_retries_when_all_fail
    (now now2 : ℤ) (userDocs : List UserDoc) (sendOk sendOk2 : String → Bool)
    (d : QuoteDoc) (t : ℤ)
    (hdue : d.proximoSeguimiento = some t)
    (hemail : d.proximoSeguimientoEmail = true)
    (htime : t ≤ now)
    (hfail : (resolveDestinatarios d userDocs).countP sendOk = 0)
    (htime2 : t ≤ now2) :
    processQuoteDoc now userDocs sendOk d = (d, resolveDestinatarios d userDocs) ∧
    (processQuoteDoc now2 userDocs sendOk2 d).2 = resolveDestinatarios d userDocs := by
  constructor
  · simp [processQuoteDoc, hdue, hemail, htime, hfail]
  · by_cases h2 : 0 < (resolveDestinatarios d userDocs).countP sendOk2 <;>
      simp [processQuoteDoc, hdue, hemail, htime2, h2]

/-- A quote document whose due reminder has no explicit recipient list. -/
def reminderDocC4 : QuoteDoc :=
  { id := "q2"
    numero := "COT-9"
    clienteNombre := none
    proximoSeguimiento := some 50
    proximoSeguimientoTipo := some "revision"
    proximoSeguimientoMensaje := none
    proximoSeguimientoEmail := true
    proximoSeguimientoPush := true
    proximoSeguimientoUsuario := none
    proximoSeguimientoDestinatarios := none }

/-- Witness for C4: all sends fail, the document is unchanged, and the next
tick attempts the same (fallback) recipient list again. -/
theorem processQuoteDoc_retries_when_all_fail_witness :
    (reminderDocC4.proximoSeguimiento = some 50 ∧
     reminderDocC4.proximoSeguimientoEmail = true ∧
     (50 : ℤ) ≤ 60 ∧
     (resolveDestinatarios reminderDocC4 []).countP (fun _ => false) = 0 ∧
     (50 : ℤ) ≤ 120) ∧
    (processQuoteDoc 60 [] (fun _ => false) reminderDocC4
        = (reminderDocC4, resolveDestinatarios reminderDocC4 []) ∧
     (processQuoteDoc 120 [] (fun _ => true) reminderDocC4).2
        = resolveDestinatarios reminderDocC4 []) :=
  ⟨⟨rfl, rfl, by decide, by decide, by decide⟩,
   processQuoteDoc_retries_when_all_fail 60 120 [] (fun _ => false)
     (fun _ => true) reminderDocC4 50 rfl rfl (by decide) (by decide) (by decide)⟩

/-- C6: for a due email reminder, the tick attempts exactly one send per
resolved recipient, in order, whatever the per-recipient outcomes (no
short-circuiting); the resolved list is the reminder's explicit recipient
list when non-empty, otherwise the emails of the currently-active users
flagged for email notification, otherwise the single hardcoded operator
address; and every fallback user is active, flagged for email
notifications, and has a non-blank email. -/
theorem processQuoteDoc_recipient_resolution
    (now : ℤ) (userDocs : List UserDoc) (sendOk : String → Bool)
    (d : QuoteDoc) (t : ℤ)
    (hdue : d.proximoSeguimiento = some t)
    (hemail : d.proximoSeguimientoEmail = true)
    (htime : t ≤ now) :
    (processQuoteDoc now userDocs sendOk d).2 = resolveDestinatarios d userDocs ∧
    (∀ ds, d.proximoSeguimientoDestinatarios = some ds → ds ≠ [] →
        resolveDestinatarios d userDocs = ds) ∧
    ((d.proximoSeguimientoDestinatarios = none ∨
      d.proximoSeguimientoDestinatarios = some []) →
        (getEmailNotificationUsers userDocs ≠ [] →
            resolveDestinatarios d userDocs
              = (getEmailNotificationUsers userDocs).map (fun u => u.email)) ∧
        (getEmailNotificationUsers userDocs = [] →
            resolveDestinatarios d userDocs = ["russofg@gmail.com"])) ∧
    (∀ u ∈ getEmailNotificationUsers userDocs,
        u.activo = true ∧ u.notificacionesEmail = true ∧ u.email.trim ≠ "") := by
  refine ⟨?_, ?_, ?_, ?_⟩
  · by_cases h : 0 < (resolveDestinatarios d userDocs).countP sendOk <;>
      simp [processQuoteDoc, hdue, hemail, htime, h]
  · intro ds hds hne
    simp [resolveDestinatarios, hds, List.length_pos, hne]
  · intro hcase
    constructor
    · intro husers
      rcases hcase with h | h <;>
        simp [resolveDestinatarios, fallbackDestinatarios, h, List.length_pos, husers]
    · intro husers
      rcases hcase with h | h <;>
        simp [resolveDestinatarios, fallbackDestinatarios, h, husers]
  · intro u hu
    rw [getEmailNotificationUsers, List.mem_filter] at hu
    obtain ⟨hact, hpred⟩ := hu
    simp only [Bool.and_eq_true, Bool.not_eq_true', beq_eq_false_iff_ne, ne_eq]
      at hpred
    refine ⟨?_, hpred.1.1, hpred.2⟩
    rw [getActiveUsers, List.mem_map] at hact
    obtain ⟨docu, hdocmem, hdoc⟩ := hact
    rw [List.mem_filter] at hdocmem
    rw [← hdoc]
    simp [toProfile, hdocmem.2]

/-- A user document eligible for the email-notification fallback. -/
def userDocC6 : UserDoc :=
  { nombre := some "Fer"
    email := some "fer@x.com"
    activo := none
    notificacionesEmail := none
    notificacionesPush := some false }

/-- Witness for C6: a due reminder without an explicit list resolves to the
active flagged user's email and one send is attempted for it. -/
theorem processQuoteDoc_recipient_resolution_witness :
    (reminderDocC4.proximoSeguimiento = some 50 ∧
     reminderDocC4.proximoSeguimientoEmail = true ∧
     (50 : ℤ) ≤ 60) ∧
    ((processQuoteDoc 60 [userDocC6] (fun _ => false) reminderDocC4).2
        = resolveDestinatarios reminderDocC4 [userDocC6] ∧
     (∀ ds, reminderDocC4.proximoSeguimientoDestinatarios = some ds → ds ≠ [] →
        resolveDestinatarios reminderDocC4 [userDocC6] = ds) ∧
     ((reminderDocC4.proximoSeguimientoDestinatarios = none ∨
       reminderDocC4.proximoSeguimientoDestinatarios = some []) →
        (getEmailNotificationUsers [userDocC6] ≠ [] →
            resolveDestinatarios reminderDocC4 [userDocC6]
              = (getEmailNotificationUsers [userDocC6]).map (fun u => u.email)) ∧
        (getEmailNotificationUsers [userDocC6] = [] →
            resolveDestinatarios reminderDocC4 [userDocC6] = ["russofg@gmail.com"])) ∧
     (∀ u ∈ getEmailNotificationUsers [userDocC6],
        u.activo = true ∧ u.notificacionesEmail = true ∧ u.email.trim ≠ "")) :=
  ⟨⟨rfl, rfl, by decide⟩,
   processQuoteDoc_recipient_resolution 60 [userDocC6] (fun _ => false)
     reminderDocC4 50 rfl rfl (by decide)⟩

/-- The single-item list exhibiting the C5 rounding discrepancy:
one unit at price 10.125 with a 50% discount. -/
def itemsC5 : List QuoteItem :=
  [{ cantidad := some 1, precio_unitario := some (81 / 8), precioBase := none }]

/-- C5 counterexample: for one item of price 10.125 and discount 50%, the
returned fields are subtotal 10.13, discountAmount 5.06, total 5.06; so
`total ≠ subtotal - discountAmount` (5.06 ≠ 5.07) and
`discountAmount ≠ round2 (subtotal * 50 / 100)` (5.06 ≠ 5.07): each field
is rounded from the unrounded subtotal, and the roundings disagree. -/
theorem calculateTotals_rounding_counterexample :
    calculateTotals itemsC5 50
        = { subtotal := 1013 / 100, descuentoMonto := 506 / 100,
            total := 506 / 100 } ∧
    (calculateTotals itemsC5 50).total
      ≠ (calculateTotals itemsC5 50).subtotal
          - (calculateTotals itemsC5 50).descuentoMonto ∧
    (calculateTotals itemsC5 50).descuentoMonto
      ≠ round2 ((calculateTotals itemsC5 50).subtotal * 50 / 100) := by
  have hs : rawSubtotal itemsC5 = 81 / 8 := by
    simp [rawSubtotal, itemsC5, itemCantidad, itemPrecio, jsOr]
  have h1 : calculateTotals itemsC5 50
      = { subtotal := 1013 / 100, descuentoMonto := 506 / 100,
          total := 506 / 100 } := by
    show (⟨round2 (rawSubtotal itemsC5),
           round2 (rawSubtotal itemsC5 * 50 / 100),
           round2 (rawSubtotal itemsC5 - rawSubtotal itemsC5 * 50 / 100)⟩ :
        QuoteTotals) = _
    rw [hs]
    unfold round2 jsRound
    norm_num [QuoteTotals.mk.injEq]
  refine ⟨h1, ?_, ?_⟩
  · rw [h1]
    norm_num
  · rw [h1]
    unfold round2 jsRound
    norm_num

/-- Upper bound: `Math.round x` is at most `x + 1/2`. -/
theorem jsRound_le (x : ℚ) : (jsRound x : ℚ) ≤ x + 1/2 := Int.floor_le _

/-- Lower bound: `Math.round x` exceeds `x - 1/2`. -/
theorem lt_jsRound (x : ℚ) : x - 1/2 < (jsRound x : ℚ) := by
  have h := Int.sub_one_lt_floor (x + 1/2)
  unfold jsRound
  linarith

/-- Rounding a difference versus differencing the roundings moves the
result by at most one unit. -/
theorem jsRound_sub_bound (u v : ℚ) :
    |jsRound (u - v) - jsRound u + jsRound v| ≤ 1 := by
  have h1 := jsRound_le (u - v)
  have h2 := lt_jsRound (u - v)
  have h3 := jsRound_le u
  have h4 := lt_jsRound u
  have h5 := jsRound_le v
  have h6 := lt_jsRound v
  have habs : |((jsRound (u - v) - jsRound u + jsRound v : ℤ) : ℚ)| < 2 := by
    rw [abs_lt]
    constructor <;> push_cast <;> linarith
  rw [← Int.cast_abs] at habs
  have h2' : (|jsRound (u - v) - jsRound u + jsRound v| : ℤ) < 2 := by
    exact_mod_cast habs
  omega

/-- C5 amended: `discountAmount` equals `round2` of the *unrounded*
subtotal times `d / 100`, and the identity
`total = subtotal - discountAmount` holds only up to one cent: the three
returned fields are each rounded independently from the raw subtotal, so
they can disagree by at most `1/100` (and do, per the counterexample). -/
theorem calculateTotals_near_identity (items : List QuoteItem) (descuento : ℚ) :
    (calculateTotals items descuento).descuentoMonto
        = round2 (rawSubtotal items * descuento / 100) ∧
    |(calculateTotals items descuento).total
        - ((calculateTotals items descuento).subtotal
            - (calculateTotals items descuento).descuentoMonto)| ≤ 1/100 := by
  constructor
  · rfl
  · show |round2 (rawSubtotal items - rawSubtotal items * descuento / 100)
        - (round2 (rawSubtotal items)
            - round2 (rawSubtotal items * descuento / 100))| ≤ 1/100
    have harg : (rawSubtotal items - rawSubtotal items * descuento / 100) * 100
        = rawSubtotal items * 100 - rawSubtotal items * descuento / 100 * 100 := by
      ring
    unfold round2
    rw [harg]
    have hbound := jsRound_sub_bound (rawSubtotal items * 100)
      (rawSubtotal items * descuento / 100 * 100)
    set A := jsRound (rawSubtotal items * 100) with hA
    set B := jsRound (rawSubtotal items * descuento / 100 * 100) with hB
    set C := jsRound (rawSubtotal items * 100
        - rawSubtotal items * descuento / 100 * 100) with hC
    have hrw : (C : ℚ) / 100 - ((A : ℚ) / 100 - (B : ℚ) / 100)
        = ((C - A + B : ℤ) : ℚ) / 100 := by
      push_cast
      ring
    rw [hrw, abs_div]
    have habs : |((C - A + B : ℤ) : ℚ)| ≤ 1 := by
      rw [← Int.cast_abs]
      exact_mod_cast hbound
    rw [abs_of_pos (by norm_num : (0 : ℚ) < 100)]
    linarith
